import Mathlib

/-!
Verification of the reproducible logic of the PersonalWeb portfolio page
(`src/main.js`, plus an earlier revision of the same file): the procedural
line-geometry generator (`Experience.setupLines`), the per-line lifecycle
animation (`Experience.animateLineLifecycle` / `Experience.setupAnimations`),
the resize handler (`Experience.onResize`), the project-card scroll handler
(`Experience.setupScrollAnimations`), and the missing-canvas
abort path of the constructor. Real-valued quantities (trigonometry) are embedded over `ℝ`;
opacity/easing arithmetic and DOM-geometry comparisons, which the page
computes with finite closed-form rational constants, are embedded over `ℚ`;
booleans and counters model the DOM-flag state machine.
-/

namespace PersonalWeb

/- ------------------------------------------------------------------ -/
/- Line-geometry generator: Experience.setupLines (main.js 202-251).  -/
/- ------------------------------------------------------------------ -/

/-- Number of decorative lines: `this.lineCount = 10` (main.js 207). -/
def lineCount : ℕ := 10

/-- Segments per line: `const segmentCount = 30` (main.js 215). -/
def segmentCount : ℕ := 30

/-- Azimuth for segment `j`: `const theta = (j / segmentCount) * Math.PI * 2`
(main.js 219). -/
noncomputable def theta (j : ℕ) : ℝ :=
  ((j : ℝ) / (segmentCount : ℝ)) * Real.pi * 2

/-- Polar angle for line `i` of `N`:
`const phi = Math.acos(-1 + (2 * i) / this.lineCount)` (main.js 220). -/
noncomputable def phiOf (N i : ℕ) : ℝ :=
  Real.arccos (-1 + (2 * (i : ℝ)) / (N : ℝ))

/-- The point pushed for segment `j` of line `i` (main.js 222-226):
`x = radius*sin(phi)*cos(theta)`, `y = radius*sin(phi)*sin(theta)`,
`z = radius*cos(phi)`. -/
noncomputable def linePoint (N i : ℕ) (radius : ℝ) (j : ℕ) : ℝ × ℝ × ℝ :=
  (radius * Real.sin (phiOf N i) * Real.cos (theta j),
   radius * Real.sin (phiOf N i) * Real.sin (theta j),
   radius * Real.cos (phiOf N i))

/-- The `points` array built for line `i`: the inner loop
`for (let j = 0; j <= segmentCount; j++)` (main.js 218-227). -/
noncomputable def linePoints (N i : ℕ) (radius : ℝ) : List (ℝ × ℝ × ℝ) :=
  (List.range (segmentCount + 1)).map (linePoint N i radius)

/-- The radius drawn once per line from the uniform source `u = Math.random()`:
`const radius = 120 + Math.random() * 100` (main.js 216). -/
noncomputable def drawRadius (u : ℝ) : ℝ := 120 + u * 100

/-- One run of the generator for line `i`, with the random source made
explicit: draw the radius from `u`, then build the point sequence. -/
noncomputable def generateLine (N i : ℕ) (u : ℝ) : List (ℝ × ℝ × ℝ) :=
  linePoints N i (drawRadius u)

/-- The children of `this.lines` after `setupLines`: the outer loop
`for (let i = 0; i < this.lineCount; i++)` adds exactly one `THREE.Line`
per iteration (main.js 213-241), with per-line random source `us i`. -/
noncomputable def setupLinesGroup (us : ℕ → ℝ) : List (List (ℝ × ℝ × ℝ)) :=
  (List.range lineCount).map (fun i => generateLine lineCount i (us i))

/- ------------------------------------------------------------------ -/
/- Lifecycle animation: Experience.animateLineLifecycle (301-324) and -/
/- Experience.setupAnimations (345-383).                              -/
/- ------------------------------------------------------------------ -/

/-- The GSAP easing `power2.out`, `p ↦ 1 - (1-p)³`, used by both lifecycle
tweens (`ease: "power2.out"`, main.js 309/316). -/
def power2Out (p : ℚ) : ℚ := 1 - (1 - p) ^ 3

/-- A `gsap.to` tween on opacity: from the current value toward `target`,
sampled at eased progress `p ∈ [0,1]` (at `p = 1` the tween has completed
and the property equals `target`). -/
def tween (a target p : ℚ) : ℚ := a + (target - a) * power2Out p

/-- Fade-in target: `opacity: 0.7` (main.js 306). -/
def fadeInTarget : ℚ := 7 / 10

/-- Fade-out target: `opacity: 0` (main.js 313). -/
def fadeOutTarget : ℚ := 0

/-- One full lifecycle cycle of `animateLineLifecycle` (main.js 301-324):
run the fade-in tween to completion, hold (which does not change opacity),
then run the fade-out tween to completion, returning the final opacity. -/
def lifecycleCycle (o : ℚ) : ℚ :=
  tween (tween o fadeInTarget 1) fadeOutTarget 1

/-- Phase of the per-line lifecycle state machine (spec §3). -/
inductive LifecyclePhase
  | fadingIn
  | holding
  | fadingOut
deriving DecidableEq

/-- Opacity observed during a cycle that started at `startOpacity`, in the
given phase at eased-progress/sample point `p`: the fade-in tween runs from
`startOpacity` to `0.7`, the hold keeps `0.7`, the fade-out tween runs from
`0.7` to `0` (main.js 301-324). -/
def opacityDuring (startOpacity : ℚ) : LifecyclePhase → ℚ → ℚ
  | .fadingIn, p => tween startOpacity fadeInTarget p
  | .holding, _ => fadeInTarget
  | .fadingOut, p => tween fadeInTarget fadeOutTarget p

/-- Opacity at the start of the `n`-th lifecycle cycle of a line with index
below `lineCount`: `setupAnimations` sets `line.material.opacity = 0.7`
before the first call (main.js 376), and each later cycle starts where the
fade-out of the previous cycle ended. -/
def cycleStart : ℕ → ℚ
  | 0 => 7 / 10
  | n + 1 => lifecycleCycle (cycleStart n)

/-- Initial opacity assigned to the child at position `index` by
`setupAnimations` (main.js 374-379): `0.7` when `index < this.lineCount`,
else `0`. -/
def initialOpacity (index : ℕ) : ℚ :=
  if index < lineCount then 7 / 10 else 0

/- ------------------------------------------------------------------ -/
/- Scroll reveal: Experience.setupScrollAnimations (main.js 827-893). -/
/- ------------------------------------------------------------------ -/

/-- `const middleSectionStart = window.innerHeight / 3` (main.js 863). -/
def middleSectionStart (innerHeight : ℚ) : ℚ := innerHeight / 3

/-- `const middleSectionEnd = window.innerHeight * 2 / 3` (main.js 864). -/
def middleSectionEnd (innerHeight : ℚ) : ℚ := innerHeight * 2 / 3

/-- `const cardTopInMiddle = rect.top <= middleSectionEnd && rect.top >=
middleSectionStart` (main.js 867). -/
def cardTopInMiddle (innerHeight top : ℚ) : Bool :=
  decide (top ≤ middleSectionEnd innerHeight) &&
    decide (middleSectionStart innerHeight ≤ top)

/-- `const cardBottomInMiddle = rect.bottom <= middleSectionEnd &&
rect.bottom >= middleSectionStart` (main.js 868). -/
def cardBottomInMiddle (innerHeight bottom : ℚ) : Bool :=
  decide (bottom ≤ middleSectionEnd innerHeight) &&
    decide (middleSectionStart innerHeight ≤ bottom)

/-- `const cardCoversMiddle = rect.top <= middleSectionStart && rect.bottom
>= middleSectionEnd` (main.js 869). -/
def cardCoversMiddle (innerHeight top bottom : ℚ) : Bool :=
  decide (top ≤ middleSectionStart innerHeight) &&
    decide (middleSectionEnd innerHeight ≤ bottom)

/-- `const isInMiddleZone = cardTopInMiddle || cardBottomInMiddle ||
cardCoversMiddle` (main.js 872). -/
def isInMiddleZone (innerHeight top bottom : ℚ) : Bool :=
  cardTopInMiddle innerHeight top || cardBottomInMiddle innerHeight bottom ||
    cardCoversMiddle innerHeight top bottom

/-- Per-card state touched by the card scroll handler (main.js 857-893):
the `card.animating` flag read by the guard, the number of `gsap.to`
transforms started on the card so far, and whether the most recently
started transform was the reveal (in-zone) or the hide (out-of-zone) one.
Initially `card.animating` is undefined, i.e. falsy. -/
structure CardState where
  animating : Bool
  transformsStarted : ℕ
  lastTweenReveal : Bool
deriving DecidableEq

/-- State of a card before any scroll notification: no transform started,
`card.animating` never assigned (falsy). -/
def initialCardState : CardState := ⟨false, 0, false⟩

/-- One firing of the per-card `lenis.on("scroll", ...)` handler
(main.js 857-893) with the zone test precomputed as `inZone`:
`if (card.animating) return;` else start one `gsap.to` transform — the
reveal when `isInMiddleZone`, the hide otherwise. Neither branch assigns
`card.animating` (only the unused `debouncedAnimate` closure at
main.js 828-854 ever sets it). -/
def cardScrollStep (s : CardState) (inZone : Bool) : CardState :=
  if s.animating then s
  else ⟨s.animating, s.transformsStarted + 1, inZone⟩

/- ------------------------------------------------------------------ -/
/- Constructor abort path: Experience.constructor (main.js 61-88).    -/
/- ------------------------------------------------------------------ -/

/-- What the `Experience` constructor has created/attached when it returns
(main.js 61-88), plus whether the missing-canvas diagnostic was logged. -/
structure ExperienceState where
  containerFound : Bool
  sceneCreated : Bool
  cameraCreated : Bool
  rendererCreated : Bool
  lightsCreated : Bool
  linesCreated : Bool
  listenersAttached : Bool
  animationsStarted : Bool
  scrollAnimationsStarted : Bool
  renderLoopStarted : Bool
  errorLogged : Bool
deriving DecidableEq

/-- The `Experience` constructor (main.js 61-88): when
`document.getElementById("webgl")` is null it logs the diagnostic
message naming the missing webgl canvas and returns at once, before
the scene or any other component is created; otherwise it builds the scene
and runs every setup step, then starts the render loop. There is no retry
or recovery branch. -/
def experienceConstructor (webglPresent : Bool) : ExperienceState :=
  if webglPresent then
    ⟨true, true, true, true, true, true, true, true, true, true, false⟩
  else
    ⟨false, false, false, false, false, false, false, false, false, false, true⟩

/- ------------------------------------------------------------------ -/
/- Resize handler: Experience.onResize (main.js 450-460).             -/
/- ------------------------------------------------------------------ -/

/-- The fov formula used by `setupCamera` and `onResize`:
`(180 * (2 * Math.atan(window.innerHeight / 2 / this.perspective))) /
Math.PI` (main.js 452). -/
noncomputable def computeFov (height perspective : ℝ) : ℝ :=
  180 * (2 * Real.arctan (height / 2 / perspective)) / Real.pi

/-- The camera fields `onResize` writes. -/
structure Camera where
  fov : ℝ
  aspect : ℝ

/-- `Experience.onResize` (main.js 450-460): recompute the fov from the new
viewport height and write it to `this.camera.fov`; update the aspect ratio
to `window.innerWidth / window.innerHeight`. -/
noncomputable def onResize (width height perspective : ℝ) (_c : Camera) : Camera :=
  { fov := computeFov height perspective, aspect := width / height }

/- ------------------------------------------------------------------ -/
/- Helper lemmas.                                                     -/
/- ------------------------------------------------------------------ -/

/-- The easing `power2Out` stays in `[0,1]` on `[0,1]`. -/
theorem power2Out_mem_Icc (p : ℚ) (h0 : 0 ≤ p) (h1 : p ≤ 1) :
    0 ≤ power2Out p ∧ power2Out p ≤ 1 := by
  unfold power2Out
  have h3 : (1 - p) ^ 3 ≤ 1 :=
    pow_le_one₀ (by linarith : (0:ℚ) ≤ 1 - p) (by linarith : (1:ℚ) - p ≤ 1)
  have h4 : (0:ℚ) ≤ (1 - p) ^ 3 := pow_nonneg (by linarith : (0:ℚ) ≤ 1 - p) 3
  constructor
  · linarith
  · linarith

/-- A tween between two values in `[0,1]`, sampled at progress in `[0,1]`,
stays in `[0,1]`. -/
theorem tween_mem_Icc (a b p : ℚ) (ha0 : 0 ≤ a) (ha1 : a ≤ 1)
    (hb0 : 0 ≤ b) (hb1 : b ≤ 1) (hp0 : 0 ≤ p) (hp1 : p ≤ 1) :
    0 ≤ tween a b p ∧ tween a b p ≤ 1 := by
  obtain ⟨he0, he1⟩ := power2Out_mem_Icc p hp0 hp1
  unfold tween
  constructor
  · nlinarith
  · nlinarith

/-- A completed tween has reached its target. -/
theorem tween_complete (a b : ℚ) : tween a b 1 = b := by
  unfold tween power2Out
  ring

/-- Every lifecycle cycle ends at opacity `0`, whatever it started from:
the target of the fade-out tween is `0`. -/
theorem lifecycleCycle_ends_at_zero (o : ℚ) : lifecycleCycle o = 0 := by
  unfold lifecycleCycle fadeOutTarget
  rw [tween_complete]

/-- A cycle of a line always starts at `0.7` (the value `setupAnimations`
assigned before the first cycle) or at `0` (the end of the previous
fade-out). -/
theorem cycleStart_cases (n : ℕ) : cycleStart n = 7 / 10 ∨ cycleStart n = 0 := by
  cases n with
  | zero => exact Or.inl rfl
  | succ m => exact Or.inr (lifecycleCycle_ends_at_zero (cycleStart m))

/-- `Real.arccos` is antitone on all of `ℝ`. -/
theorem arccos_antitone {x y : ℝ} (h : x ≤ y) :
    Real.arccos y ≤ Real.arccos x := by
  rw [Real.arccos_eq_pi_div_two_sub_arcsin, Real.arccos_eq_pi_div_two_sub_arcsin]
  have := Real.monotone_arcsin h
  linarith

/- ------------------------------------------------------------------ -/
/- Claims.                                                            -/
/- ------------------------------------------------------------------ -/

/-- Claim C3: one full lifecycle cycle (fade-in to 0.7, hold, fade-out to
0) is a round trip on opacity: a cycle starting at opacity 0 ends, at the
completion of its fade-out phase, back at the starting opacity 0. -/
theorem C3_cycle_round_trip : lifecycleCycle 0 = 0 :=
  lifecycleCycle_ends_at_zero 0

/-- Claim C7: when the `#webgl` canvas is absent at startup, the
`Experience` constructor logs the diagnostic and aborts construction:
no scene, camera, renderer, lights, lines, listeners, animations, or
render loop are created, and nothing else happens (no retry). -/
theorem C7_missing_canvas_aborts :
    (experienceConstructor false).errorLogged = true ∧
    (experienceConstructor false).containerFound = false ∧
    (experienceConstructor false).sceneCreated = false ∧
    (experienceConstructor false).cameraCreated = false ∧
    (experienceConstructor false).rendererCreated = false ∧
    (experienceConstructor false).lightsCreated = false ∧
    (experienceConstructor false).linesCreated = false ∧
    (experienceConstructor false).listenersAttached = false ∧
    (experienceConstructor false).animationsStarted = false ∧
    (experienceConstructor false).scrollAnimationsStarted = false ∧
    (experienceConstructor false).renderLoopStarted = false := by
  decide

/-- Claim C2 (code evaluated at the failing input): two scroll
notifications arriving while the first transform is still in flight both
start a transform. After the first scroll one transform has started yet
`card.animating` is still false — the handler never sets it — so the
second scroll is not suppressed and starts a second transform. -/
theorem C2_second_transform_starts :
    (cardScrollStep initialCardState true).transformsStarted = 1 ∧
    (cardScrollStep initialCardState true).animating = false ∧
    (cardScrollStep (cardScrollStep initialCardState true) true).transformsStarted = 2 := by
  decide

/-- Claim C4: after a viewport resize, the camera field of view equals
`2 * atan(innerHeight / 2 / perspective)` converted from radians to
degrees. -/
theorem C4_resize_fov (width height perspective : ℝ) (c : Camera) :
    (onResize width height perspective c).fov =
      2 * Real.arctan (height / 2 / perspective) * (180 / Real.pi) := by
  unfold onResize computeFov
  ring

/-- Claim C5: the line-geometry generator is deterministic: two runs for
the same index `i` and count `N` that draw the same radius produce
identical point sequences. -/
theorem C5_generator_deterministic (N i : ℕ) (u₁ u₂ : ℝ)
    (hradius : drawRadius u₁ = drawRadius u₂) :
    generateLine N i u₁ = generateLine N i u₂ := by
  unfold generateLine
  rw [hradius]

/-- Witness for C5 at `N = 3`, `i = 0`, equal random draws `1/2`. -/
theorem C5_witness :
    drawRadius (1 / 2) = drawRadius (1 / 2) ∧
    generateLine 3 0 (1 / 2) = generateLine 3 0 (1 / 2) :=
  ⟨rfl, C5_generator_deterministic 3 0 (1 / 2) (1 / 2) rfl⟩

/-- Claim C6: whenever the card box satisfies `top ≤ bottom` and the
viewport height is nonnegative, the boolean the scroll handler derives via
the three disjuncts is true exactly when the box `[top, bottom]` overlaps
the middle zone `[innerHeight/3, innerHeight*2/3]` (has a common point
with it). -/
theorem C6_middle_zone_overlap (innerHeight top bottom : ℚ)
    (htb : top ≤ bottom) (hh : 0 ≤ innerHeight) :
    isInMiddleZone innerHeight top bottom = true ↔
      ∃ y, top ≤ y ∧ y ≤ bottom ∧
        middleSectionStart innerHeight ≤ y ∧ y ≤ middleSectionEnd innerHeight := by
  have hzone : middleSectionStart innerHeight ≤ middleSectionEnd innerHeight := by
    unfold middleSectionStart middleSectionEnd
    linarith
  simp only [isInMiddleZone, cardTopInMiddle, cardBottomInMiddle, cardCoversMiddle,
    Bool.or_eq_true, Bool.and_eq_true, decide_eq_true_eq]
  constructor
  · rintro ((⟨h1, h2⟩ | ⟨h1, h2⟩) | ⟨h1, h2⟩)
    · exact ⟨top, le_refl top, htb, h2, h1⟩
    · exact ⟨bottom, htb, le_refl bottom, h2, h1⟩
    · exact ⟨middleSectionStart innerHeight, h1, le_trans hzone h2, le_refl _, hzone⟩
  · rintro ⟨y, hy1, hy2, hy3, hy4⟩
    by_cases hc1 : middleSectionStart innerHeight ≤ top
    · exact Or.inl (Or.inl ⟨le_trans hy1 hy4, hc1⟩)
    · by_cases hc2 : bottom ≤ middleSectionEnd innerHeight
      · exact Or.inl (Or.inr ⟨hc2, le_trans hy3 hy2⟩)
      · exact Or.inr ⟨le_of_not_le hc1, le_of_not_le hc2⟩

/-- Witness for C6: viewport height 3 (middle zone `[1, 2]`), card box
`[1, 2]`. -/
theorem C6_witness :
    isInMiddleZone 3 1 2 = true ↔
      ∃ y, (1:ℚ) ≤ y ∧ y ≤ 2 ∧ middleSectionStart 3 ≤ y ∧ y ≤ middleSectionEnd 3 :=
  C6_middle_zone_overlap 3 1 2 (by norm_num) (by norm_num)

/-- Claim C8: throughout the repeated lifecycle (fade-in toward 0.7, hold,
fade-out toward 0, restarted forever), sampled at any eased progress in
`[0,1]` in any phase of any cycle, the opacity of the line stays within
`[0, 1]`. -/
theorem C8_opacity_invariant (n : ℕ) (phase : LifecyclePhase) (p : ℚ)
    (hp0 : 0 ≤ p) (hp1 : p ≤ 1) :
    0 ≤ opacityDuring (cycleStart n) phase p ∧
      opacityDuring (cycleStart n) phase p ≤ 1 := by
  have hstart : 0 ≤ cycleStart n ∧ cycleStart n ≤ 1 := by
    rcases cycleStart_cases n with h | h <;> rw [h] <;> norm_num
  cases phase with
  | fadingIn =>
      exact tween_mem_Icc (cycleStart n) fadeInTarget p hstart.1 hstart.2
        (by norm_num [fadeInTarget]) (by norm_num [fadeInTarget]) hp0 hp1
  | holding =>
      constructor <;> norm_num [opacityDuring, fadeInTarget]
  | fadingOut =>
      exact tween_mem_Icc fadeInTarget fadeOutTarget p
        (by norm_num [fadeInTarget]) (by norm_num [fadeInTarget])
        (by norm_num [fadeOutTarget]) (by norm_num [fadeOutTarget]) hp0 hp1

/-- Witness for C8: cycle 0, fade-in phase, mid-tween progress `1/2`. -/
theorem C8_witness :
    (0:ℚ) ≤ 1 / 2 ∧ (1:ℚ) / 2 ≤ 1 ∧
      (0 ≤ opacityDuring (cycleStart 0) LifecyclePhase.fadingIn (1 / 2) ∧
        opacityDuring (cycleStart 0) LifecyclePhase.fadingIn (1 / 2) ≤ 1) :=
  ⟨by norm_num, by norm_num,
    C8_opacity_invariant 0 LifecyclePhase.fadingIn (1 / 2) (by norm_num) (by norm_num)⟩

/-- Claim C10: `setupLines` puts exactly `lineCount` children into the
lines group, so every child index seen by `setupAnimations` is below
`lineCount`: the `else` branch assigning initial opacity `0` is
unreachable and every line starts its lifecycle at opacity `0.7`. -/
theorem C10_opacity_branch_unreachable (us : ℕ → ℝ) (index : ℕ)
    (hindex : index < (setupLinesGroup us).length) :
    index < lineCount ∧ initialOpacity index = 7 / 10 := by
  have hlen : (setupLinesGroup us).length = lineCount := by
    simp [setupLinesGroup]
  rw [hlen] at hindex
  refine ⟨hindex, ?_⟩
  unfold initialOpacity
  rw [if_pos hindex]

/-- Witness for C10: the first child of a group generated from the
constant random source `0`. -/
theorem C10_witness :
    0 < (setupLinesGroup (fun _ => 0)).length ∧
      (0 < lineCount ∧ initialOpacity 0 = 7 / 10) := by
  have h : 0 < (setupLinesGroup (fun _ => 0)).length := by
    simp [setupLinesGroup, lineCount]
  exact ⟨h, C10_opacity_branch_unreachable (fun _ => 0) 0 h⟩

/-- Claim C9: every generated polyline is closed: the point pushed at
`j = 0` (azimuth `0`) equals the point pushed at `j = segmentCount`
(azimuth `2π`), radius and polar angle being fixed for the line. -/
theorem C9_polyline_closed (N i : ℕ) (r : ℝ) :
    (linePoints N i r)[0]? = (linePoints N i r)[segmentCount]? ∧
      linePoint N i r 0 = linePoint N i r segmentCount := by
  have htheta0 : theta 0 = 0 := by
    simp [theta]
  have hthetaN : theta segmentCount = 2 * Real.pi := by
    unfold theta segmentCount
    norm_num
    ring
  have hpt : linePoint N i r 0 = linePoint N i r segmentCount := by
    unfold linePoint
    rw [htheta0, hthetaN, Real.cos_two_pi, Real.sin_two_pi, Real.cos_zero, Real.sin_zero]
  refine ⟨?_, hpt⟩
  unfold linePoints
  rw [List.getElem?_map, List.getElem?_map]
  simp only [List.getElem?_range, segmentCount]
  norm_num
  exact hpt

/-- Claim C1, counterexample: with the configured count `N = 10`, the
polar angle is NOT a non-decreasing function of the line index: already
`phi(1) < phi(0)`, since `acos` is decreasing and the argument
`-1 + 2i/N` grows with `i`. -/
theorem C1_counterexample : ¬ (phiOf 10 0 ≤ phiOf 10 1) := by
  have h0 : phiOf 10 0 = Real.pi := by
    unfold phiOf
    norm_num [Real.arccos_neg_one]
  have h1 : phiOf 10 1 < Real.pi := by
    unfold phiOf
    have harg : (-1 + (2 * ((1:ℕ):ℝ)) / ((10:ℕ):ℝ)) = -4 / 5 := by norm_num
    rw [harg]
    refine lt_of_le_of_ne (Real.arccos_le_pi _) ?_
    rw [Ne, Real.arccos_eq_pi]
    norm_num
  intro hle
  rw [h0] at hle
  linarith

/-- Claim C1 (amended): for every line the generated polyline has exactly
`segmentCount + 1` points, every point lies at distance equal to the
single (nonnegative) radius drawn for that line from the origin, and the
polar angle `phi` is a NON-INCREASING function of the line index. -/
theorem C1_line_geometry (N i j : ℕ) (r : ℝ) (hij : i ≤ j) (hr : 0 ≤ r) :
    (linePoints N i r).length = segmentCount + 1 ∧
      (∀ p ∈ linePoints N i r,
        Real.sqrt (p.1 ^ 2 + p.2.1 ^ 2 + p.2.2 ^ 2) = r) ∧
      phiOf N j ≤ phiOf N i := by
  refine ⟨by simp [linePoints], ?_, ?_⟩
  · intro p hp
    unfold linePoints at hp
    rcases List.mem_map.mp hp with ⟨k, hk, rfl⟩
    unfold linePoint
    simp only
    have h1 : Real.sin (theta k) ^ 2 + Real.cos (theta k) ^ 2 = 1 :=
      Real.sin_sq_add_cos_sq _
    have h2 : Real.sin (phiOf N i) ^ 2 + Real.cos (phiOf N i) ^ 2 = 1 :=
      Real.sin_sq_add_cos_sq _
    have hsum : (r * Real.sin (phiOf N i) * Real.cos (theta k)) ^ 2 +
        (r * Real.sin (phiOf N i) * Real.sin (theta k)) ^ 2 +
        (r * Real.cos (phiOf N i)) ^ 2 = r ^ 2 := by
      linear_combination (r ^ 2 * Real.sin (phiOf N i) ^ 2) * h1 + r ^ 2 * h2
    rw [hsum]
    exact Real.sqrt_sq hr
  · unfold phiOf
    apply arccos_antitone
    have hiN : ((i:ℝ)) ≤ ((j:ℝ)) := Nat.cast_le.mpr hij
    have hdiv : (2 * (i:ℝ)) / (N:ℝ) ≤ (2 * (j:ℝ)) / (N:ℝ) :=
      div_le_div_of_nonneg_right (by linarith) (Nat.cast_nonneg N)
    linarith

/-- Witness for C1 (amended) at `N = 10`, indices `0 ≤ 1`, radius `150`. -/
theorem C1_witness :
    (0:ℕ) ≤ 1 ∧ (0:ℝ) ≤ 150 ∧
      ((linePoints 10 0 150).length = segmentCount + 1 ∧
        (∀ p ∈ linePoints 10 0 (150:ℝ),
          Real.sqrt (p.1 ^ 2 + p.2.1 ^ 2 + p.2.2 ^ 2) = 150) ∧
        phiOf 10 1 ≤ phiOf 10 0) :=
  ⟨by norm_num, by norm_num, C1_line_geometry 10 0 1 150 (by norm_num) (by norm_num)⟩

end PersonalWeb
